import Mathlib

/-!
Verification development for the openwebui_functions repository: five
Open WebUI "pipe" adapter modules (Cloudflare Workers AI, DeepSeek,
Mistral, Perplexity, x.AI).  The Python source is embedded shallowly:
JSON values become an inductive type, the Python dict/list operations
used by the source become explicit helpers that also model the
exceptions Python would raise (TypeError / KeyError / AttributeError),
`json.loads` is an oracle function passed to the decoders, and the
HTTP transport is an oracle function passed to the pipe entry points.
The deepseek_pipe.py, mistral_pipe.py, perplexity_pipe.py and
xai_pipe.py files are textually identical up to a handful of string
constants (default model id, namespace tag, optional parameter list,
error messages); they are embedded once, parameterized by those
constants (`OpenAICfg`), exactly as the files differ.
-/

/-- Values produced by json.loads: the JSON data model. -/
inductive Json where
  | null
  | bool (b : Bool)
  | num (n : Int)
  | str (s : String)
  | arr (items : List Json)
  | obj (fields : List (String × Json))

/-- First-match association-list lookup, the model of Python dict key
access (json.loads produces unique keys, so first match is the match). -/
def lookupAssoc : List (String × Json) → String → Option Json
  | [], _ => none
  | (k0, v) :: rest, k => if k0 = k then some v else lookupAssoc rest k

/-- Replacement or insertion of a key in a dict, the model of Python
`d[k] = v` on a dict: an existing key keeps its position, a new key is
appended at the end (Python 3.7+ insertion order). -/
def setAssoc : List (String × Json) → String → Json → List (String × Json)
  | [], k, v => [(k, v)]
  | (k0, v0) :: rest, k, v =>
      if k0 = k then (k, v) :: rest else (k0, v0) :: setAssoc rest k v

/-- Membership of a dotless separator-free character test helper:
does the character list start with the given pattern. -/
def listStartsWith : List Char → List Char → Bool
  | _, [] => true
  | [], _ :: _ => false
  | c :: cs, p :: ps => c = p && listStartsWith cs ps

/-- Does the haystack contain the needle as a contiguous run
(the model of Python `needle in haystack` on strings). -/
def listHasInfix (hay needle : List Char) : Bool :=
  match hay with
  | [] => needle.isEmpty
  | _ :: rest => listStartsWith hay needle || listHasInfix rest needle

/-- String wrapper for `listStartsWith`: Python str.startswith. -/
def strStartsWith (s pre : String) : Bool := listStartsWith s.data pre.data

/-- String wrapper for `listHasInfix`: Python `sub in s`. -/
def strContainsSub (hay needle : String) : Bool := listHasInfix hay.data needle.data

/-- Emptiness of a string through its character list (Python truthiness
of a str is non-emptiness). -/
def strIsEmpty (s : String) : Bool := s.data.isEmpty

/-- Drop of the first n characters, the model of Python `line[6:]`
(slicing by code points, which is what Python strings index by). -/
def strDropN (s : String) (n : Nat) : String := String.mk (s.data.drop n)

/-- Characters Python str.strip() removes: the full str.isspace()
set — ASCII whitespace, the C0 information separators U+001C-U+001F,
NEL (U+0085), NBSP (U+00A0), Ogham space (U+1680), the Unicode spaces
U+2000-U+200A, the line and paragraph separators U+2028/U+2029, and
U+202F, U+205F, U+3000. -/
def pyWhitespace : List Char :=
  ['\t', '\n', '\x0b', '\x0c', '\r', '\x1c', '\x1d', '\x1e', '\x1f', ' ',
   '\x85', '\xa0', '\u1680',
   '\u2000', '\u2001', '\u2002', '\u2003', '\u2004', '\u2005', '\u2006',
   '\u2007', '\u2008', '\u2009', '\u200a',
   '\u2028', '\u2029', '\u202f', '\u205f', '\u3000']

/-- Membership test in the str.strip() whitespace set. -/
def pyIsSpace (c : Char) : Bool := pyWhitespace.contains c

/-- Model of Python str.strip(): whitespace removed from both ends. -/
def pyStrip (s : String) : String :=
  String.mk (((s.data.dropWhile pyIsSpace).reverse.dropWhile pyIsSpace).reverse)

/-- Fuel-indexed worker for `pyReplace`; the fuel (the input length)
only makes the structural recursion explicit, it never runs out. -/
def pyReplaceAux : Nat → List Char → List Char → List Char → List Char
  | 0, s, _, _ => s
  | _ + 1, [], _, _ => []
  | fuel + 1, c :: rest, old, new =>
      if listStartsWith (c :: rest) old && !old.isEmpty then
        new ++ pyReplaceAux fuel ((c :: rest).drop old.length) old new
      else
        c :: pyReplaceAux fuel rest old new

/-- Model of Python str.replace(old, new): every non-overlapping
occurrence, scanned left to right.  The source only calls it with a
non-empty `old` (a provider tag such as "deepseek."), so the behavior
of an empty pattern is irrelevant and modeled as a no-op. -/
def pyReplace (s old new : String) : String :=
  String.mk (pyReplaceAux s.data.length s.data old.data new.data)

/-- Characters after the first occurrence of the separator, the model
of Python `s.split(sep, 1)[1]` when the separator is known present. -/
def dropThroughChar (sep : Char) : List Char → List Char
  | [] => []
  | c :: rest => if c = sep then rest else dropThroughChar sep rest

/-- String wrapper for `dropThroughChar` with the "." separator used
by the Cloudflare pipe. -/
def strAfterFirstDot (s : String) : String := String.mk (dropThroughChar '.' s.data)

/-- Concatenation of a list of strings in order (emission order). -/
def strConcat : List String → String
  | [] => ""
  | s :: rest => s ++ strConcat rest

/-- Model of Python sep.join(parts). -/
def strJoinSep (sep : String) : List String → String
  | [] => ""
  | [s] => s
  | s :: t :: rest => s ++ sep ++ strJoinSep sep (t :: rest)

namespace Json

/-- Python equality test of a JSON value against a str literal: in
Python only a str compares equal to a str. -/
def eqStr : Json → String → Bool
  | .str s, t => s = t
  | _, _ => false

/-- Python truthiness of a JSON value. -/
def pyTruthy : Json → Bool
  | .null => false
  | .bool b => b
  | .num n => n != 0
  | .str s => !strIsEmpty s
  | .arr xs => !xs.isEmpty
  | .obj fs => !fs.isEmpty

/-- Plain key lookup on an object, for use in theorem statements. -/
def lookupKey (j : Json) (k : String) : Option Json :=
  match j with
  | .obj fs => lookupAssoc fs k
  | _ => none

/-- Model of Python `k in v` with a str key: dict membership on keys,
substring test on a str, elementwise equality on a list; any other
value raises TypeError. -/
def pyContains (j : Json) (k : String) : Except String Bool :=
  match j with
  | .obj fs => .ok (lookupAssoc fs k).isSome
  | .str s => .ok (strContainsSub s k)
  | .arr xs => .ok (xs.any (fun x => x.eqStr k))
  | _ => .error "TypeError: argument not iterable"

/-- Model of Python `v[k]` with a str key: dict item access; a str or
list raises TypeError for str indices, anything else as well. -/
def pyItem (j : Json) (k : String) : Except String Json :=
  match j with
  | .obj fs =>
      match lookupAssoc fs k with
      | some v => .ok v
      | none => .error ("KeyError: " ++ k)
  | _ => .error "TypeError: indices must be integers"

/-- Model of Python `v.get(k, d)`: only dicts have .get, anything else
raises AttributeError. -/
def pyGetD (j : Json) (k : String) (d : Json) : Except String Json :=
  match j with
  | .obj fs => .ok ((lookupAssoc fs k).getD d)
  | _ => .error "AttributeError: no attribute get"

/-- Model of Python len(v): lists, dicts and strs have a length, other
JSON values raise TypeError. -/
def pyLen : Json → Except String Nat
  | .arr xs => .ok xs.length
  | .obj fs => .ok fs.length
  | .str s => .ok s.data.length
  | _ => .error "TypeError: object has no len"

/-- Model of Python `v[0]`: first element of a list, first character of
a str; a dict raises KeyError (JSON keys are strings, never 0), other
values raise TypeError. -/
def pyIndexZero : Json → Except String Json
  | .arr [] => .error "IndexError: list index out of range"
  | .arr (x :: _) => .ok x
  | .str s =>
      match s.data with
      | [] => .error "IndexError: string index out of range"
      | c :: _ => .ok (.str (String.mk [c]))
  | .obj _ => .error "KeyError: 0"
  | _ => .error "TypeError: not subscriptable"

/-- Model of Python iteration `for x in v`: elements of a list,
characters of a str, keys of a dict; other values raise TypeError. -/
def pyIter : Json → Except String (List Json)
  | .arr xs => .ok xs
  | .str s => .ok (s.data.map (fun c => .str (String.mk [c])))
  | .obj fs => .ok (fs.map (fun kv => .str kv.1))
  | _ => .error "TypeError: not iterable"

/-- Model of Python `d[k] = v` on the payload dicts built by the pipes
(always dicts in the source; a non-dict is left unchanged). -/
def setKey : Json → String → Json → Json
  | .obj fs, k, v => .obj (setAssoc fs k v)
  | j, _, _ => j

/-- Text of a str fragment, empty for any other value; used only in
theorem statements to express concatenation of emitted fragments. -/
def textOrEmpty : Json → String
  | .str s => s
  | _ => ""

/-- Model of Python str(v) as used by the f-strings of
messages_to_input.  str() of a str is itself, which is the only case a
claim exercises; numbers, booleans and None render as in Python, and
the container renderings (which Python produces via repr) are
abstracted as placeholders never inspected by any theorem. -/
def pyStr : Json → String
  | .str s => s
  | .num n => toString n
  | .bool true => "True"
  | .bool false => "False"
  | .null => "None"
  | .arr _ => "<list>"
  | .obj _ => "<dict>"

end Json

/-- Outcome of consuming a streaming generator to its end: either it
completed (possibly via the `break` on "[DONE]" or via the Cloudflare
except-branch), or an uncaught exception propagated to the caller. -/
inductive StreamOutcome where
  | done
  | raised (msg : String)
deriving DecidableEq

/-- What processing one line of the stream does: emit fragments and
continue, emit fragments and stop (the `break` on "[DONE]"), or raise
an exception out of the loop body. -/
inductive LineAction where
  | emit (frags : List Json)
  | halt (frags : List Json)
  | raise (msg : String)

/-- An HTTP response as the pipes observe it: the status code, the
response.text body, the outcome of calling response.json() (error =
the json parse exception), and the lines produced by iter_lines after
UTF-8 decoding, where an error element models the read raising at that
point of the iteration. -/
structure HttpResponse where
  status : Nat
  text : String
  json : Except String Json
  lines : List (Except String String)

/-- Result of the requests.post call: a response, a requests Timeout
exception, or another requests RequestException (connection failure). -/
inductive TransportResult where
  | success (resp : HttpResponse)
  | timeout (msg : String)
  | requestError (msg : String)

/-- One outbound HTTP request as issued by requests.post. -/
structure OutboundRequest where
  url : String
  headers : List (String × String)
  payload : Json
  stream : Bool

/-- What a pipe(...) invocation hands back to the Open WebUI host: a
single value (a str in practice), or a generator, recorded together
with the fragments it yields when fully consumed and the outcome of
that consumption. -/
inductive PipeReturn where
  | value (v : Json)
  | generator (frags : List Json) (outcome : StreamOutcome)

/-- Message str(HTTPError) produced by response.raise_for_status(); the
exact human phrase requests builds (reason, client/server wording) is
irrelevant to every claim and abstracted to status and url. -/
def httpErrorMsg (status : Nat) (url : String) : String :=
  toString status ++ " Error for url: " ++ url

namespace OpenAIStyle

/-!
Shared embedding of deepseek_pipe.py, mistral_pipe.py,
perplexity_pipe.py and xai_pipe.py, which are textually identical up
to the constants gathered in `OpenAICfg` below.  Line references are
given for deepseek_pipe.py; the other three files match line for line.
-/

/-- Per-provider constants in which the four OpenAI-style pipe files
differ: the default model id (pipe, line 64), the namespace tag
stripped from incoming model ids (lines 65-66), the optional sampling
parameters copied from the body (lines 75-86), and the three error
message strings. -/
structure OpenAICfg where
  defaultModel : String
  tag : String
  optionalParams : List String
  keyErrMsg : String
  connectErrMsg : String
  noRespMsg : String

/-- Fragments one successfully parsed streaming event contributes in
_handle_stream (deepseek_pipe.py lines 136-140): if the event has a
"choices" key with a non-empty value, the first element's "delta"
(defaulting to an empty dict) is read, and its "content" is yielded
whenever the key is present — including when the content is empty. -/
def choices_fragments (data : Json) : Except String (List Json) := do
  let hasChoices ← data.pyContains "choices"
  if hasChoices then
    let choices ← data.pyItem "choices"
    let n ← choices.pyLen
    if n > 0 then
      let first ← choices.pyIndexZero
      let delta ← first.pyGetD "delta" (.obj [])
      let hasContent ← delta.pyContains "content"
      if hasContent then
        let c ← delta.pyItem "content"
        return [c]
      else
        return []
    else
      return []
  else
    return []

/-- Processing of one line of the SSE stream in _handle_stream
(deepseek_pipe.py lines 125-142): empty lines and lines without the
"data: " marker are ignored; a payload whose strip() equals "[DONE]"
breaks the loop; a payload json.loads rejects is skipped (`continue`);
otherwise the parsed event's choices fragments are yielded, and any
exception raised while handling the event escapes the generator. -/
def handle_stream_line (parse : String → Option Json) (line : String) : LineAction :=
  if strIsEmpty line then .emit []
  else if strStartsWith line "data: " then
    let dataStr := strDropN line 6
    if pyStrip dataStr = "[DONE]" then .halt []
    else
      match parse dataStr with
      | none => .emit []
      | some data =>
        match choices_fragments data with
        | .ok fs => .emit fs
        | .error e => .raise e
  else .emit []

/-- Full consumption of the _handle_stream generator over the line
stream (deepseek_pipe.py lines 124-142).  There is no try/except
around the loop: a read error raises out of the generator, after the
fragments already yielded; so does an exception from the loop body. -/
def handle_stream_run (parse : String → Option Json) :
    List (Except String String) → List Json × StreamOutcome
  | [] => ([], .done)
  | .error e :: _ => ([], .raised e)
  | .ok line :: rest =>
      match handle_stream_line parse line with
      | .emit fs =>
          let r := handle_stream_run parse rest
          (fs ++ r.1, r.2)
      | .halt fs => (fs, .done)
      | .raise e => ([], .raised e)

/-- Consumption of the generator over a pure list of lines (no read
errors), the common case of the streaming claims. -/
def decodeLines (parse : String → Option Json) (lines : List String) :
    List Json × StreamOutcome :=
  handle_stream_run parse (lines.map .ok)

/-- Extraction step of _handle_non_stream (deepseek_pipe.py lines
112-115) applied to the parsed response body: the first choice's
message content if a non-empty "choices" is present, else the
provider's "no response" error string.  A missing "message" or
"content" key raises (KeyError), which pipe's generic except turns
into an error string. -/
def extract (noRespMsg : String) (data : Json) : Except String Json := do
  let hasChoices ← data.pyContains "choices"
  if hasChoices then
    let choices ← data.pyItem "choices"
    let n ← choices.pyLen
    if n > 0 then
      let first ← choices.pyIndexZero
      let message ← first.pyItem "message"
      let content ← message.pyItem "content"
      return content
    else
      return (.str noRespMsg)
  else
    return (.str noRespMsg)

/-- Namespace-tag stripping of the incoming model id (deepseek_pipe.py
lines 65-66): only an id that starts with this provider's own tag is
touched, and then every occurrence of the tag is removed (str.replace
replaces all occurrences, not just the leading one). -/
def strip_model_tag (tag : String) (model_id : String) : String :=
  if strStartsWith model_id tag then pyReplace model_id tag "" else model_id

/-- Copy of one optional parameter from the request body into the
outbound payload when present (deepseek_pipe.py lines 75-86). -/
def addParam (payload : Json) (body : Json) (k : String) : Json :=
  match body with
  | .obj fs =>
      match lookupAssoc fs k with
      | some v => payload.setKey k v
      | none => payload
  | _ => payload

/-- Copies of all of the provider's optional parameters, in the order
the source tests them. -/
def addParams (payload : Json) (body : Json) (ks : List String) : Json :=
  ks.foldl (fun p k => addParam p body k) payload

/-- Outbound payload construction of pipe (deepseek_pipe.py lines
63-90): model id with the provider tag stripped, messages, optional
parameters, and the "stream" entry holding the body's raw stream
value.  Returns the payload and that raw stream value; a non-str model
value raises (body.get("model", ...) feeds str.startswith). -/
def build_payload (cfg : OpenAICfg) (body : Json) : Except String (Json × Json) :=
  match body.pyGetD "model" (.str cfg.defaultModel) with
  | .error e => .error e
  | .ok modelJson =>
    match modelJson with
    | .str model_id₀ =>
      let model_id := strip_model_tag cfg.tag model_id₀
      match body.pyGetD "messages" (.arr []) with
      | .error e => .error e
      | .ok messages =>
        let payload := Json.obj [("model", .str model_id), ("messages", messages)]
        let payload := addParams payload body cfg.optionalParams
        match body.pyGetD "stream" (.bool false) with
        | .error e => .error e
        | .ok streamJson => .ok (payload.setKey "stream" streamJson, streamJson)
    | _ => .error "AttributeError: no attribute startswith"

/-- Full embedding of pipe (deepseek_pipe.py lines 43-142, with
_handle_stream and _handle_non_stream inlined at their call sites and
the generator consumed to exhaustion).  `http` is the transport
oracle, `parse` the json.loads oracle; the returned list collects the
outbound requests actually issued.  The try of lines 92-103 wraps only
the non-streaming path observable here: returning the _handle_stream
generator executes none of its body, so transport errors, bad HTTP
statuses (raise_for_status) and read errors on the streaming path
surface as exceptions when the host iterates, which the `.generator`
outcome records.  A top-level `.error` is an exception escaping
pipe itself (only possible before the try, e.g. a non-str model). -/
def pipe (cfg : OpenAICfg) (apiKey baseUrl : String) (body : Json)
    (http : OutboundRequest → TransportResult) (parse : String → Option Json) :
    Except String (PipeReturn × List OutboundRequest) :=
  if apiKey = "" then
    .ok (.value (.str cfg.keyErrMsg), [])
  else
  let headers := [("Authorization", "Bearer " ++ apiKey),
                  ("Content-Type", "application/json")]
  match build_payload cfg body with
  | .error e => .error e
  | .ok (payload, streamJson) =>
  let stream := streamJson.pyTruthy
  let url := baseUrl ++ "/chat/completions"
  let req : OutboundRequest := ⟨url, headers, payload, stream⟩
  if stream then
    match http req with
    | .success resp =>
        if 400 ≤ resp.status ∧ resp.status < 600 then
          .ok (.generator [] (.raised (httpErrorMsg resp.status url)), [req])
        else
          let r := handle_stream_run parse resp.lines
          .ok (.generator r.1 r.2, [req])
    | .timeout m => .ok (.generator [] (.raised m), [req])
    | .requestError m => .ok (.generator [] (.raised m), [req])
  else
    match http req with
    | .success resp =>
        if 400 ≤ resp.status ∧ resp.status < 600 then
          .ok (.value (.str (cfg.connectErrMsg ++ httpErrorMsg resp.status url)), [req])
        else
          match resp.json with
          | .error e => .ok (.value (.str (cfg.connectErrMsg ++ e)), [req])
          | .ok data =>
              match extract cfg.noRespMsg data with
              | .ok v => .ok (.value v, [req])
              | .error e => .ok (.value (.str ("Error: " ++ e)), [req])
    | .timeout m => .ok (.value (.str (cfg.connectErrMsg ++ m)), [req])
    | .requestError m => .ok (.value (.str (cfg.connectErrMsg ++ m)), [req])

end OpenAIStyle

/-- Constants of deepseek_pipe.py. -/
def deepseekCfg : OpenAIStyle.OpenAICfg :=
  { defaultModel := "deepseek-chat"
    tag := "deepseek."
    optionalParams := ["temperature", "max_tokens", "top_p",
                       "frequency_penalty", "presence_penalty", "stop"]
    keyErrMsg := "Error: DEEPSEEK_API_KEY is not set. Please configure it in the pipe settings."
    connectErrMsg := "Error: Failed to connect to DeepSeek API - "
    noRespMsg := "Error: No response from DeepSeek API" }

/-- Constants of mistral_pipe.py. -/
def mistralCfg : OpenAIStyle.OpenAICfg :=
  { defaultModel := "mistral-large-latest"
    tag := "mistral."
    optionalParams := ["temperature", "max_tokens", "top_p", "min_tokens",
                       "stop", "random_seed", "safe_prompt"]
    keyErrMsg := "Error: MISTRAL_API_KEY is not set. Please configure it in the pipe settings."
    connectErrMsg := "Error: Failed to connect to Mistral API - "
    noRespMsg := "Error: No response from Mistral API" }

/-- Constants of perplexity_pipe.py. -/
def perplexityCfg : OpenAIStyle.OpenAICfg :=
  { defaultModel := "sonar"
    tag := "perplexity."
    optionalParams := ["temperature", "max_tokens", "top_p", "top_k",
                       "frequency_penalty", "presence_penalty"]
    keyErrMsg := "Error: PERPLEXITY_API_KEY is not set. Please configure it in the pipe settings."
    connectErrMsg := "Error: Failed to connect to Perplexity API - "
    noRespMsg := "Error: No response from Perplexity API" }

/-- Constants of xai_pipe.py. -/
def xaiCfg : OpenAIStyle.OpenAICfg :=
  { defaultModel := "grok-3"
    tag := "xai."
    optionalParams := ["temperature", "max_tokens", "top_p",
                       "frequency_penalty", "presence_penalty", "stop"]
    keyErrMsg := "Error: XAI_API_KEY is not set. Please configure it in the pipe settings."
    connectErrMsg := "Error: Failed to connect to x.AI API - "
    noRespMsg := "Error: No response from x.AI API" }

namespace Cloudflare

/-!
Embedding of cloudflare_pipe.py.  Line references are to that file.
-/

/-- Valve configuration of the Cloudflare pipe (lines 19-30). -/
structure Valves where
  CLOUDFLARE_API_KEY : String
  CLOUDFLARE_ACCOUNT_ID : String
  BASE_URL : String

/-- String-table lookup helper for the model catalog. -/
def lookupStr : List (String × String) → String → Option String
  | [], _ => none
  | (k0, v) :: rest, k => if k0 = k then some v else lookupStr rest k

/-- The model_mapping dict of get_cloudflare_model_name (lines 71-83). -/
def model_mapping : List (String × String) :=
  [("cf-gpt-oss-120b", "@cf/openai/gpt-oss-120b"),
   ("cf-llama-3.1-70b-instruct", "@cf/meta/llama-3.1-70b-instruct"),
   ("cf-llama-3.3-70b-instruct-fp8-fast", "@cf/meta/llama-3.3-70b-instruct-fp8-fast"),
   ("cf-mistral-small-3.1-24b-instruct", "@cf/mistral/mistral-small-3.1-24b-instruct"),
   ("cf-llama-3.1-8b-instruct", "@cf/meta/llama-3.1-8b-instruct"),
   ("cf-mistral-7b-instruct-v0.2", "@cf/mistral/mistral-7b-instruct-v0.2"),
   ("cf-qwen2.5-coder-32b-instruct", "@cf/qwen/qwen2.5-coder-32b-instruct"),
   ("cf-gemma-3-12b-it", "@cf/google/gemma-3-12b-it"),
   ("cf-gpt-oss-20b", "@cf/openai/gpt-oss-20b"),
   ("cf-llama-3.2-1b-instruct", "@cf/meta/llama-3.2-1b-instruct"),
   ("cf-llama-3.2-3b-instruct", "@cf/meta/llama-3.2-3b-instruct")]

/-- get_cloudflare_model_name (lines 68-84): catalog lookup with the
raw id as the permissive fallback. -/
def get_cloudflare_model_name (model_id : String) : String :=
  (lookupStr model_mapping model_id).getD model_id

/-- uses_responses_endpoint (lines 86-89). -/
def uses_responses_endpoint (cf_model_name : String) : Bool :=
  strContainsSub cf_model_name "openai/gpt-oss"

/-- Namespace stripping of pipe (lines 131-133): any id containing "."
is split on the first "." and only the suffix kept. -/
def strip_model_tag (model_id : String) : String :=
  if strContainsSub model_id "." then strAfterFirstDot model_id else model_id

/-- messages_to_input (lines 91-115) applied to the body's "messages"
value.  An empty (falsy) value flattens to ""; a single message to its
content verbatim (whatever JSON value that is); several messages to
their parts joined by blank lines, where the parts of the system,
assistant and user roles are built by f-strings (which stringify the
content) and any other role contributes the raw content, which
str.join requires to be a str (a non-str raises TypeError). -/
def msgsParts : List Json → Except String (List String)
  | [] => .ok []
  | msg :: rest => do
      let role ← msg.pyGetD "role" (.str "user")
      let content ← msg.pyGetD "content" (.str "")
      let part ←
        if role.eqStr "system" then Except.ok ("System: " ++ content.pyStr)
        else if role.eqStr "assistant" then Except.ok ("Assistant: " ++ content.pyStr)
        else if role.eqStr "user" then Except.ok ("User: " ++ content.pyStr)
        else
          match content with
          | .str s => Except.ok s
          | _ => Except.error "TypeError: sequence item: expected str instance"
      let more ← msgsParts rest
      return part :: more

/-- messages_to_input itself (lines 91-115). -/
def messages_to_input (messages : Json) : Except String Json := do
  if !messages.pyTruthy then
    return (.str "")
  let n ← messages.pyLen
  if n = 1 then
    let m0 ← messages.pyIndexZero
    m0.pyGetD "content" (.str "")
  else
    let msgs ← messages.pyIter
    let parts ← msgsParts msgs
    return (.str (strJoinSep "\n\n" parts))

/-- Inner loop over json_data["choices"] of stream_response (lines
269-273): every element with a "delta" key contributes its delta's
content when that content is truthy (non-empty). -/
def choicesLoop : List Json → Except String (List Json)
  | [] => .ok []
  | choice :: rest => do
      let hasDelta ← choice.pyContains "delta"
      let here ←
        if hasDelta then do
          let delta ← choice.pyItem "delta"
          let content ← delta.pyGetD "content" (.str "")
          pure (if content.pyTruthy then [content] else [])
        else
          pure []
      let more ← choicesLoop rest
      return here ++ more

/-- Fragments one successfully parsed streaming event contributes in
stream_response (lines 257-275): a top-level "response" verbatim; else
a "result" that is a str, or a dict with its own "response"; else the
"choices" loop; else a top-level "content" verbatim; else nothing. -/
def event_fragments (json_data : Json) : Except String (List Json) := do
  let hasResponse ← json_data.pyContains "response"
  if hasResponse then
    let r ← json_data.pyItem "response"
    return [r]
  else
    let hasResult ← json_data.pyContains "result"
    if hasResult then
      let result ← json_data.pyItem "result"
      match result with
      | .str s => return [.str s]
      | .obj _ => do
          let hasR ← result.pyContains "response"
          if hasR then
            let v ← result.pyItem "response"
            return [v]
          else
            return []
      | _ => return []
    else
      let hasChoices ← json_data.pyContains "choices"
      if hasChoices then
        let choices ← json_data.pyItem "choices"
        let elems ← choices.pyIter
        choicesLoop elems
      else
        let hasContent ← json_data.pyContains "content"
        if hasContent then
          let c ← json_data.pyItem "content"
          return [c]
        else
          return []

/-- Processing of one line in stream_response (lines 242-280): empty
lines and lines without the "data: " marker are ignored; a payload
exactly "[DONE]" (no strip here) breaks the loop; a payload
json.loads rejects is yielded verbatim when non-empty (and not
"[DONE]", re-checked); otherwise the parsed event's fragments are
yielded, exceptions escaping to the enclosing try. -/
def stream_line (parse : String → Option Json) (line : String) : LineAction :=
  if strIsEmpty line then .emit []
  else if strStartsWith line "data: " then
    let data := strDropN line 6
    if data = "[DONE]" then .halt []
    else
      match parse data with
      | none => .emit (if !strIsEmpty data && data ≠ "[DONE]" then [.str data] else [])
      | some json_data =>
        match event_fragments json_data with
        | .ok fs => .emit fs
        | .error e => .raise e
  else .emit []

/-- Full consumption of stream_response (lines 239-282).  The whole
loop sits in try/except Exception: a read error or a loop-body
exception yields one final "Error during streaming" fragment after the
fragments already delivered, and the generator then completes — it
never propagates an exception. -/
def stream_response (parse : String → Option Json) :
    List (Except String String) → List Json × StreamOutcome
  | [] => ([], .done)
  | .error e :: _ => ([.str ("\n\nError during streaming: " ++ e)], .done)
  | .ok line :: rest =>
      match stream_line parse line with
      | .emit fs =>
          let r := stream_response parse rest
          (fs ++ r.1, r.2)
      | .halt fs => (fs, .done)
      | .raise e => ([.str ("\n\nError during streaming: " ++ e)], .done)

/-- Consumption of stream_response over a pure list of lines. -/
def decodeLines (parse : String → Option Json) (lines : List String) :
    List Json × StreamOutcome :=
  stream_response parse (lines.map .ok)

/-- Rendering of the fallback diagnostic of the non-streaming path
(line 230): the f-string of list(response_data.keys()) for a dict,
"not a dict" otherwise. -/
def keysRepr (response_data : Json) : String :=
  match response_data with
  | .obj fs =>
      "[" ++ strJoinSep ", " (fs.map (fun kv => "\x27" ++ kv.1 ++ "\x27")) ++ "]"
  | _ => "not a dict"

/-- Scan of the content list of one output item (lines 219-227): the
first dict element whose "type" is "output_text" returns its "text"
(defaulting to ""); no match falls through. -/
def contentScan : List Json → Option Json
  | [] => none
  | content_item :: rest =>
      match content_item with
      | .obj fs =>
          if (Json.obj fs |>.lookupKey "type").getD .null |>.eqStr "output_text" then
            some (((Json.obj fs).lookupKey "text").getD (.str ""))
          else
            contentScan rest
      | _ => contentScan rest

/-- Scan of the output array (lines 216-227): for each dict element
whose "type" is "message" and whose "content" (defaulting to []) is a
list, the content scan may return; otherwise the loop continues to the
next output item. -/
def outputScan : List Json → Option Json
  | [] => none
  | item :: rest =>
      match item with
      | .obj fs =>
          if ((Json.obj fs).lookupKey "type").getD .null |>.eqStr "message" then
            match ((Json.obj fs).lookupKey "content").getD (.arr []) with
            | .arr content =>
                match contentScan content with
                | some v => some v
                | none => outputScan rest
            | _ => outputScan rest
          else
            outputScan rest
      | _ => outputScan rest

/-- Non-streaming extraction of pipe (lines 197-230) applied to the
parsed response body: unwrap an optional "result" envelope
(result.get, which raises on a non-dict body), then a plain str, a
"response" field, the output-array scan, or the fallback diagnostic
string. -/
def extract_body (result : Json) : Except String Json := do
  let response_data ← result.pyGetD "result" result
  match response_data with
  | .str s => return (.str s)
  | _ =>
    if (response_data.lookupKey "response").isSome then
      match response_data.lookupKey "response" with
      | some v => return v
      | none => return (.str "")
    else
      match response_data.lookupKey "output" with
      | some (.arr output_array) =>
          match outputScan output_array with
          | some v => return v
          | none =>
              return (.str ("Error: Could not extract text from response. Response keys: "
                            ++ keysRepr response_data))
      | _ =>
          return (.str ("Error: Could not extract text from response. Response keys: "
                        ++ keysRepr response_data))

/-- Copies of the three optional parameters of the Cloudflare pipe
(lines 160-166) into a payload. -/
def with_optional_params (body payload : Json) : Json :=
  OpenAIStyle.addParam (OpenAIStyle.addParam
    (OpenAIStyle.addParam payload body "temperature") body "max_tokens") body "top_p"

/-- Outbound call construction of pipe (lines 127-166): model id with
any namespace split off, catalog resolution, endpoint and payload
choice by uses_responses_endpoint, and the three optional parameters
of `with_optional_params` (lines 161-166).  The model_id and
cf_model_name intermediates of lines 133-136 are inlined.
Exceptions here (non-str model id, non-dict body, a bad messages
value reaching messages_to_input) are raised before the try of line
172 and so escape pipe. -/
def build_call (valves : Valves) (body : Json) : Except String (String × Json) :=
  match body.pyGetD "model" (.str "") with
  | .error e => .error e
  | .ok modelJson =>
    match body.pyGetD "messages" (.arr []) with
    | .error e => .error e
    | .ok messages =>
      match modelJson with
      | .str model_id₀ =>
        if uses_responses_endpoint (get_cloudflare_model_name (strip_model_tag model_id₀)) then
          match messages_to_input messages with
          | .error e => .error e
          | .ok input_text =>
              .ok (valves.BASE_URL ++ "/" ++ valves.CLOUDFLARE_ACCOUNT_ID ++ "/ai/v1/responses",
                   with_optional_params body
                     (Json.obj [("model", .str (get_cloudflare_model_name (strip_model_tag model_id₀))),
                                ("input", input_text)]))
        else
          .ok (valves.BASE_URL ++ "/" ++ valves.CLOUDFLARE_ACCOUNT_ID ++ "/ai/run/"
                 ++ get_cloudflare_model_name (strip_model_tag model_id₀),
               with_optional_params body (Json.obj [("messages", messages)]))
      | _ => .error "TypeError: in requires string as left operand"

/-- The headers dict of pipe (lines 139-142). -/
def mkHeaders (valves : Valves) : List (String × String) :=
  [("Authorization", "Bearer " ++ valves.CLOUDFLARE_API_KEY),
   ("Content-Type", "application/json")]

/-- Full embedding of pipe (lines 117-237).  Streaming is forced off
at line 170 (`stream = False`), so the streaming branch of lines
173-186 is modeled but unreachable; the non-streaming branch makes one
request and converts every timeout, connection failure, bad status,
json failure or extraction failure into a returned error string (the
try of lines 172-237).  requests raises its JSONDecodeError, a
RequestException subclass, when response.json() fails, so that case
lands in the "Failed to connect" handler. -/
def pipe (valves : Valves) (body : Json)
    (http : OutboundRequest → TransportResult) (parse : String → Option Json) :
    Except String (PipeReturn × List OutboundRequest) :=
  if valves.CLOUDFLARE_API_KEY = "" then
    .ok (.value (.str "Error: Cloudflare API Key is not set. Please configure it in the valve settings."), [])
  else if valves.CLOUDFLARE_ACCOUNT_ID = "" then
    .ok (.value (.str "Error: Cloudflare Account ID is not set. Please configure it in the valve settings."), [])
  else
  match build_call valves body with
  | .error e => .error e
  | .ok (url, payload) =>
  let headers := mkHeaders valves
  let stream := false
  if stream then
    let payload := payload.setKey "stream" (.bool true)
    let req : OutboundRequest := ⟨url, headers, payload, true⟩
    match http req with
    | .success resp =>
        if resp.status ≠ 200 then
          .ok (.value (.str ("Error: Cloudflare API returned status "
                                ++ toString resp.status ++ ": " ++ resp.text)), [req])
        else
          let r := stream_response parse resp.lines
          .ok (.generator r.1 r.2, [req])
    | .timeout _ =>
        .ok (.value (.str "Error: Request to Cloudflare Workers AI timed out."), [req])
    | .requestError m =>
        .ok (.value (.str ("Error: Failed to connect to Cloudflare Workers AI: " ++ m)), [req])
  else
    let req : OutboundRequest := ⟨url, headers, payload, false⟩
    match http req with
    | .success resp =>
        if resp.status ≠ 200 then
          .ok (.value (.str ("Error: Cloudflare API returned status "
                                ++ toString resp.status ++ ": " ++ resp.text)), [req])
        else
          match resp.json with
          | .error e =>
              .ok (.value (.str ("Error: Failed to connect to Cloudflare Workers AI: " ++ e)), [req])
          | .ok result =>
              match extract_body result with
              | .ok v => .ok (.value v, [req])
              | .error e => .ok (.value (.str ("Error: " ++ e)), [req])
    | .timeout _ =>
        .ok (.value (.str "Error: Request to Cloudflare Workers AI timed out."), [req])
    | .requestError m =>
        .ok (.value (.str ("Error: Failed to connect to Cloudflare Workers AI: " ++ m)), [req])

end Cloudflare

/-!
Spec-side definitions.  These follow the specification's words, for
the refinement claims that compare streamed and non-streamed forms of
the same logical response: the canonical OpenAI-style streaming event
carrying one content piece, the canonical complete response body for
the same text, and their Cloudflare /run counterparts.
-/

/-- Canonical OpenAI-style streaming event carrying one delta piece. -/
def choicesDeltaEvent (piece : String) : Json :=
  .obj [("choices", .arr [.obj [("delta", .obj [("content", .str piece)])]])]

/-- Canonical OpenAI-style complete response body for a full text. -/
def openaiCompleteBody (full : String) : Json :=
  .obj [("choices", .arr [.obj [("message", .obj [("content", .str full)])]])]

/-- Canonical Cloudflare /run streaming event carrying one piece. -/
def responseEvent (piece : String) : Json :=
  .obj [("response", .str piece)]

/-- Canonical Cloudflare /run complete response body (the result
envelope around a response field, as the API returns it). -/
def cfCompleteBody (full : String) : Json :=
  .obj [("result", .obj [("response", .str full)])]

/-- Concatenation, in emission order, of the text of a fragment list.
Every fragment the claims exercise is a str. -/
def fragsText (fs : List Json) : String :=
  strConcat (fs.map Json.textOrEmpty)

/-- Encoding of one element of a "choices" array by what it offers:
no "delta" key, a "delta" without "content", or a "delta" whose
"content" is the given string. -/
def mkChoiceJson : Option (Option String) → Json
  | none => .obj []
  | some none => .obj [("delta", .obj [])]
  | some (some s) => .obj [("delta", .obj [("content", .str s)])]

/-- A chat message dict with the given role and content strings. -/
def mkMsg (role content : String) : Json :=
  .obj [("role", .str role), ("content", .str content)]

/-- The flattening rule of the specification for one message: a
capitalized role label for system/assistant/user, raw content for any
other role. -/
def rolePartSpec (rc : String × String) : String :=
  if rc.1 = "system" then "System: " ++ rc.2
  else if rc.1 = "assistant" then "Assistant: " ++ rc.2
  else if rc.1 = "user" then "User: " ++ rc.2
  else rc.2

/-- Model field of the payload a payload-builder produced. -/
def payloadModelOf (r : Except String (Json × Json)) : Option Json :=
  match r with
  | .ok (p, _) => p.lookupKey "model"
  | .error _ => none

/-- The value a pipe invocation returned, when it did not raise. -/
def returnOf (r : Except String (PipeReturn × List OutboundRequest)) : Option PipeReturn :=
  match r with
  | .ok (pr, _) => some pr
  | .error _ => none

/-- Model field of the payload of the first outbound request a pipe
invocation issued. -/
def firstPayloadModel (r : Except String (PipeReturn × List OutboundRequest)) : Option Json :=
  match r with
  | .ok (_, req :: _) => req.payload.lookupKey "model"
  | _ => none

/-- A transport oracle answering every request with an empty 200
response body. -/
def okHttp : OutboundRequest → TransportResult :=
  fun _ => .success ⟨200, "", .ok (.obj []), []⟩

/-- A json.loads oracle that rejects every payload. -/
def noParse : String → Option Json := fun _ => none

/-!
Helper lemmas about the "data: " framing of SSE lines.
-/

theorem listStartsWith_nil (l : List Char) : listStartsWith l [] = true := by
  cases l <;> rfl

theorem listStartsWith_append (pre s : List Char) : listStartsWith (pre ++ s) pre = true := by
  induction pre with
  | nil => exact listStartsWith_nil s
  | cons c cs ih => simp [listStartsWith, ih]

theorem dataLine_isEmpty (t : String) : strIsEmpty ("data: " ++ t) = false := by
  show (("data: " ++ t).data).isEmpty = false
  rw [String.data_append]
  rfl

theorem dataLine_starts (t : String) : strStartsWith ("data: " ++ t) "data: " = true := by
  show listStartsWith ("data: " ++ t).data ("data: " : String).data = true
  rw [String.data_append]
  exact listStartsWith_append _ _

theorem dataLine_drop (t : String) : strDropN ("data: " ++ t) 6 = t := by
  show String.mk (("data: " ++ t).data.drop 6) = t
  have h : ("data: " ++ t).data.drop 6 = t.data := by
    rw [String.data_append]
    exact List.drop_left ['d', 'a', 't', 'a', ':', ' '] t.data
  rw [h]

/-!
Computation lemmas for the canonical event and body shapes, and for
the per-line behavior of the two decoders.
-/

theorem ds_choices_fragments_delta (p : String) :
    OpenAIStyle.choices_fragments (choicesDeltaEvent p) = .ok [.str p] := rfl

theorem cf_event_fragments_response (p : String) :
    Cloudflare.event_fragments (responseEvent p) = .ok [.str p] := rfl

theorem ds_extract_complete (msg full : String) :
    OpenAIStyle.extract msg (openaiCompleteBody full) = .ok (.str full) := rfl

theorem cf_extract_complete (full : String) :
    Cloudflare.extract_body (cfCompleteBody full) = .ok (.str full) := rfl

theorem ds_line_done (parse : String → Option Json) (payload : String)
    (h : pyStrip payload = "[DONE]") :
    OpenAIStyle.handle_stream_line parse ("data: " ++ payload) = .halt [] := by
  unfold OpenAIStyle.handle_stream_line
  simp [dataLine_isEmpty, dataLine_starts, dataLine_drop, h]

theorem ds_line_parsed (parse : String → Option Json) (payload : String) (ev : Json)
    (hs : pyStrip payload ≠ "[DONE]") (hp : parse payload = some ev) :
    OpenAIStyle.handle_stream_line parse ("data: " ++ payload)
      = (match OpenAIStyle.choices_fragments ev with
         | .ok fs => .emit fs
         | .error e => .raise e) := by
  unfold OpenAIStyle.handle_stream_line
  simp [dataLine_isEmpty, dataLine_starts, dataLine_drop, hs, hp]

theorem ds_line_skip (parse : String → Option Json) (payload : String)
    (hs : pyStrip payload ≠ "[DONE]") (hp : parse payload = none) :
    OpenAIStyle.handle_stream_line parse ("data: " ++ payload) = .emit [] := by
  unfold OpenAIStyle.handle_stream_line
  simp [dataLine_isEmpty, dataLine_starts, dataLine_drop, hs, hp]

theorem cf_line_done (parse : String → Option Json) :
    Cloudflare.stream_line parse "data: [DONE]" = .halt [] := rfl

theorem cf_line_parsed (parse : String → Option Json) (payload : String) (ev : Json)
    (hd : payload ≠ "[DONE]") (hp : parse payload = some ev) :
    Cloudflare.stream_line parse ("data: " ++ payload)
      = (match Cloudflare.event_fragments ev with
         | .ok fs => .emit fs
         | .error e => .raise e) := by
  unfold Cloudflare.stream_line
  simp [dataLine_isEmpty, dataLine_starts, dataLine_drop, hd, hp]

theorem cf_line_raw (parse : String → Option Json) (payload : String)
    (hd : payload ≠ "[DONE]") (hne : strIsEmpty payload = false) (hp : parse payload = none) :
    Cloudflare.stream_line parse ("data: " ++ payload) = .emit [.str payload] := by
  unfold Cloudflare.stream_line
  simp [dataLine_isEmpty, dataLine_starts, dataLine_drop, hd, hne, hp]

/-- Text of a list of str fragments is their concatenation. -/
theorem fragsText_strs (l : List String) :
    fragsText (l.map Json.str) = strConcat l := by
  induction l with
  | nil => rfl
  | cons s rest ih =>
      simp only [List.map_cons, fragsText, strConcat, Json.textOrEmpty] at *
      rw [ih]

/-- Streamed fragments of a list of canonical OpenAI-style delta
events: one str fragment per event, in order, ending normally. -/
theorem ds_decode_deltas (parse : String → Option Json) (evs : List (String × String))
    (h : ∀ pt ∈ evs, pyStrip pt.2 ≠ "[DONE]" ∧ parse pt.2 = some (choicesDeltaEvent pt.1)) :
    OpenAIStyle.decodeLines parse (evs.map (fun pt => "data: " ++ pt.2))
      = (evs.map (fun pt => Json.str pt.1), .done) := by
  induction evs with
  | nil => rfl
  | cons pt rest ih =>
      obtain ⟨hs, hp⟩ := h pt (List.mem_cons_self pt rest)
      have hline : OpenAIStyle.handle_stream_line parse ("data: " ++ pt.2)
          = .emit [.str pt.1] := by
        rw [ds_line_parsed parse pt.2 _ hs hp, ds_choices_fragments_delta]
      have ihr := ih (fun q hq => h q (List.mem_cons_of_mem pt hq))
      simp only [OpenAIStyle.decodeLines, List.map_cons] at *
      rw [List.map_map] at ihr
      simp [OpenAIStyle.handle_stream_run, hline, ihr]

/-- Streamed fragments of a list of canonical Cloudflare /run
response events: one str fragment per event, in order. -/
theorem cf_decode_responses (parse : String → Option Json) (evs : List (String × String))
    (h : ∀ pt ∈ evs, pt.2 ≠ "[DONE]" ∧ parse pt.2 = some (responseEvent pt.1)) :
    Cloudflare.decodeLines parse (evs.map (fun pt => "data: " ++ pt.2))
      = (evs.map (fun pt => Json.str pt.1), .done) := by
  induction evs with
  | nil => rfl
  | cons pt rest ih =>
      obtain ⟨hd, hp⟩ := h pt (List.mem_cons_self pt rest)
      have hline : Cloudflare.stream_line parse ("data: " ++ pt.2)
          = .emit [.str pt.1] := by
        rw [cf_line_parsed parse pt.2 _ hd hp, cf_event_fragments_response]
      have ihr := ih (fun q hq => h q (List.mem_cons_of_mem pt hq))
      simp only [Cloudflare.decodeLines, List.map_cons] at *
      rw [List.map_map] at ihr
      simp [Cloudflare.stream_response, hline, ihr]

/-- C1: for every logical response, the concatenation in emission
order of all fragments the streaming decoder produces over the SSE
lines of that response equals the text the non-streaming extractor
returns for the equivalent single complete JSON response body.  A
logical response is a list of content pieces, each carried by one
"data: " line whose payload the json.loads oracle parses to the
canonical streaming event for that piece; the equivalent complete
body carries the concatenation of the pieces.  Covered for the
OpenAI-style providers (choices/delta events against the
choices/message extraction of _handle_non_stream) and for the
Cloudflare /run shape (response events against the result-envelope
extraction of the non-streaming pipe branch). -/
theorem claim1_stream_nonstream_equiv :
    (∀ (parse : String → Option Json) (evs : List (String × String)),
      (∀ pt ∈ evs, pyStrip pt.2 ≠ "[DONE]" ∧ parse pt.2 = some (choicesDeltaEvent pt.1)) →
      fragsText (OpenAIStyle.decodeLines parse (evs.map (fun pt => "data: " ++ pt.2))).1
          = strConcat (evs.map Prod.fst)
        ∧ OpenAIStyle.extract "Error: No response from DeepSeek API"
            (openaiCompleteBody (strConcat (evs.map Prod.fst)))
          = .ok (.str (strConcat (evs.map Prod.fst))))
    ∧ (∀ (parse : String → Option Json) (evs : List (String × String)),
      (∀ pt ∈ evs, pt.2 ≠ "[DONE]" ∧ parse pt.2 = some (responseEvent pt.1)) →
      fragsText (Cloudflare.decodeLines parse (evs.map (fun pt => "data: " ++ pt.2))).1
          = strConcat (evs.map Prod.fst)
        ∧ Cloudflare.extract_body (cfCompleteBody (strConcat (evs.map Prod.fst)))
          = .ok (.str (strConcat (evs.map Prod.fst)))) := by
  constructor
  · intro parse evs h
    refine ⟨?_, ds_extract_complete _ _⟩
    rw [ds_decode_deltas parse evs h]
    show fragsText (evs.map (fun pt => Json.str pt.1)) = _
    rw [show evs.map (fun pt => Json.str pt.1) = (evs.map Prod.fst).map Json.str by
      rw [List.map_map]; rfl]
    exact fragsText_strs _
  · intro parse evs h
    refine ⟨?_, cf_extract_complete _⟩
    rw [cf_decode_responses parse evs h]
    show fragsText (evs.map (fun pt => Json.str pt.1)) = _
    rw [show evs.map (fun pt => Json.str pt.1) = (evs.map Prod.fst).map Json.str by
      rw [List.map_map]; rfl]
    exact fragsText_strs _

/-- Witness for C1 at a concrete two-piece stream whose payload texts
are the actual JSON renderings of the canonical events. -/
def c1payloadA : String :=
  "\x7b\"choices\": [\x7b\"delta\": \x7b\"content\": \"Hello\"\x7d\x7d]\x7d"

/-- Second concrete payload of the C1 witness stream. -/
def c1payloadB : String :=
  "\x7b\"choices\": [\x7b\"delta\": \x7b\"content\": \" world\"\x7d\x7d]\x7d"

/-- A json.loads oracle for the two C1 witness payloads. -/
def c1parse : String → Option Json :=
  fun s =>
    if s = c1payloadA then some (choicesDeltaEvent "Hello")
    else if s = c1payloadB then some (choicesDeltaEvent " world")
    else none

theorem claim1_stream_nonstream_equiv_witness :
    fragsText (OpenAIStyle.decodeLines c1parse
        ([("Hello", c1payloadA), (" world", c1payloadB)].map (fun pt => "data: " ++ pt.2))).1
      = strConcat ([("Hello", c1payloadA), (" world", c1payloadB)].map Prod.fst)
    ∧ OpenAIStyle.extract "Error: No response from DeepSeek API"
        (openaiCompleteBody (strConcat ([("Hello", c1payloadA), (" world", c1payloadB)].map Prod.fst)))
      = .ok (.str (strConcat ([("Hello", c1payloadA), (" world", c1payloadB)].map Prod.fst))) :=
  claim1_stream_nonstream_equiv.1 c1parse [("Hello", c1payloadA), (" world", c1payloadB)]
    (by
      intro pt hpt
      simp only [List.mem_cons, List.mem_singleton] at hpt
      rcases hpt with h | h | h
      · subst h; exact ⟨by decide, rfl⟩
      · subst h; exact ⟨by decide, rfl⟩
      · cases h)

/-- C4: once a decoder sees a line whose payload is "[DONE]" (after
strip() for the OpenAI-style decoders, verbatim for the Cloudflare
decoder), the fragment sequence terminates: every subsequent input
line is irrelevant and contributes zero fragments, because decoding
any extension of the stream that ends at the DONE line equals
decoding that shorter stream. -/
theorem claim4_done_terminates :
    (∀ (parse : String → Option Json) (payload : String),
      pyStrip payload = "[DONE]" →
      ∀ (pre suf : List (Except String String)),
        OpenAIStyle.handle_stream_run parse (pre ++ Except.ok ("data: " ++ payload) :: suf)
          = OpenAIStyle.handle_stream_run parse (pre ++ [Except.ok ("data: " ++ payload)]))
    ∧ (∀ (parse : String → Option Json) (pre suf : List (Except String String)),
        Cloudflare.stream_response parse (pre ++ Except.ok "data: [DONE]" :: suf)
          = Cloudflare.stream_response parse (pre ++ [Except.ok "data: [DONE]"])) := by
  constructor
  · intro parse payload h pre suf
    induction pre with
    | nil =>
        simp only [List.nil_append]
        simp [OpenAIStyle.handle_stream_run, ds_line_done parse payload h]
    | cons x rest ih =>
        cases x with
        | error e => simp [OpenAIStyle.handle_stream_run]
        | ok line =>
            simp only [List.cons_append, OpenAIStyle.handle_stream_run]
            cases hl : OpenAIStyle.handle_stream_line parse line <;> simp [hl, ih]
  · intro parse pre suf
    induction pre with
    | nil =>
        simp only [List.nil_append]
        simp [Cloudflare.stream_response, cf_line_done parse]
    | cons x rest ih =>
        cases x with
        | error e => simp [Cloudflare.stream_response]
        | ok line =>
            simp only [List.cons_append, Cloudflare.stream_response]
            cases hl : Cloudflare.stream_line parse line <;> simp [hl, ih]

theorem claim4_done_terminates_witness :
    OpenAIStyle.handle_stream_run noParse
        ([Except.ok "data: x"] ++ Except.ok ("data: " ++ " [DONE] ") :: [Except.ok "data: y"])
      = OpenAIStyle.handle_stream_run noParse
        ([Except.ok "data: x"] ++ [Except.ok ("data: " ++ " [DONE] ")]) :=
  claim4_done_terminates.1 noParse " [DONE] " (by decide)
    [Except.ok "data: x"] [Except.ok "data: y"]

/-- Whether a pipe invocation handed the host a plain value — neither
a raised exception nor a generator. -/
def returnsValue (r : Except String (PipeReturn × List OutboundRequest)) : Bool :=
  match r with
  | .ok (.value _, _) => true
  | _ => false

/-- The text a pipe invocation returned as a plain str value, when it
returned one. -/
def returnedText (r : Except String (PipeReturn × List OutboundRequest)) : Option String :=
  match r with
  | .ok (.value (.str s), _) => some s
  | _ => none

/-- C3 amended: the propagation policy, split by path.  Streaming: the
Cloudflare generator converts any exception — a read error or a
loop-body error — into one terminal "Error during streaming" fragment
and completes, never raising (first conjunct), emitting exactly that
one fragment at the point of a read error (second conjunct); the
OpenAI-style providers' streaming generator instead propagates a read
error to the caller as an exception, with no error-notice fragment
(third conjunct).  Non-streaming: every error kind comes back as a
returned user-visible text value, never as a raised exception and
never as a generator — for the OpenAI-style pipes the result is a
plain value whatever the transport does (fourth conjunct), and a
timeout, a connection failure, a 4xx/5xx status raised by
raise_for_status, a response.json() failure, and an extraction
failure each yield their specific error string (fifth to eighth
conjuncts); likewise for the Cloudflare pipe (ninth conjunct for any
transport outcome, tenth to thirteenth for the specific error
strings of its distinct handlers). -/
theorem claim3_amended_error_propagation :
    (∀ (parse : String → Option Json) (s : List (Except String String)),
        (Cloudflare.stream_response parse s).2 = .done)
    ∧ (∀ (parse : String → Option Json) (e : String) (rest : List (Except String String)),
        Cloudflare.stream_response parse (Except.error e :: rest)
          = ([.str ("\n\nError during streaming: " ++ e)], .done))
    ∧ (∀ (parse : String → Option Json) (e : String) (rest : List (Except String String)),
        OpenAIStyle.handle_stream_run parse (Except.error e :: rest) = ([], .raised e))
    ∧ (∀ (cfg : OpenAIStyle.OpenAICfg) (apiKey baseUrl : String) (body : Json)
        (parse : String → Option Json) (payload streamJson : Json) (tr : TransportResult),
        OpenAIStyle.build_payload cfg body = .ok (payload, streamJson) →
        streamJson.pyTruthy = false →
        returnsValue (OpenAIStyle.pipe cfg apiKey baseUrl body (fun _ => tr) parse) = true)
    ∧ (∀ (cfg : OpenAIStyle.OpenAICfg) (apiKey baseUrl : String) (body : Json)
        (parse : String → Option Json) (payload streamJson : Json) (m : String),
        apiKey ≠ "" →
        OpenAIStyle.build_payload cfg body = .ok (payload, streamJson) →
        streamJson.pyTruthy = false →
        returnedText (OpenAIStyle.pipe cfg apiKey baseUrl body
            (fun _ => TransportResult.timeout m) parse)
          = some (cfg.connectErrMsg ++ m)
        ∧ returnedText (OpenAIStyle.pipe cfg apiKey baseUrl body
            (fun _ => TransportResult.requestError m) parse)
          = some (cfg.connectErrMsg ++ m))
    ∧ (∀ (cfg : OpenAIStyle.OpenAICfg) (apiKey baseUrl : String) (body : Json)
        (parse : String → Option Json) (payload streamJson : Json)
        (status : Nat) (text : String) (jn : Except String Json)
        (ls : List (Except String String)),
        apiKey ≠ "" →
        OpenAIStyle.build_payload cfg body = .ok (payload, streamJson) →
        streamJson.pyTruthy = false →
        400 ≤ status → status < 600 →
        returnedText (OpenAIStyle.pipe cfg apiKey baseUrl body
            (fun _ => TransportResult.success ⟨status, text, jn, ls⟩) parse)
          = some (cfg.connectErrMsg ++ httpErrorMsg status (baseUrl ++ "/chat/completions")))
    ∧ (∀ (cfg : OpenAIStyle.OpenAICfg) (apiKey baseUrl : String) (body : Json)
        (parse : String → Option Json) (payload streamJson : Json)
        (text e : String) (ls : List (Except String String)),
        apiKey ≠ "" →
        OpenAIStyle.build_payload cfg body = .ok (payload, streamJson) →
        streamJson.pyTruthy = false →
        returnedText (OpenAIStyle.pipe cfg apiKey baseUrl body
            (fun _ => TransportResult.success ⟨200, text, .error e, ls⟩) parse)
          = some (cfg.connectErrMsg ++ e))
    ∧ (∀ (cfg : OpenAIStyle.OpenAICfg) (apiKey baseUrl : String) (body : Json)
        (parse : String → Option Json) (payload streamJson : Json)
        (text : String) (data : Json) (e : String) (ls : List (Except String String)),
        apiKey ≠ "" →
        OpenAIStyle.build_payload cfg body = .ok (payload, streamJson) →
        streamJson.pyTruthy = false →
        OpenAIStyle.extract cfg.noRespMsg data = .error e →
        returnedText (OpenAIStyle.pipe cfg apiKey baseUrl body
            (fun _ => TransportResult.success ⟨200, text, .ok data, ls⟩) parse)
          = some ("Error: " ++ e))
    ∧ (∀ (valves : Cloudflare.Valves) (body : Json) (parse : String → Option Json)
        (url : String) (payload : Json) (tr : TransportResult),
        Cloudflare.build_call valves body = .ok (url, payload) →
        returnsValue (Cloudflare.pipe valves body (fun _ => tr) parse) = true)
    ∧ (∀ (valves : Cloudflare.Valves) (body : Json) (parse : String → Option Json)
        (url : String) (payload : Json) (m : String),
        valves.CLOUDFLARE_API_KEY ≠ "" → valves.CLOUDFLARE_ACCOUNT_ID ≠ "" →
        Cloudflare.build_call valves body = .ok (url, payload) →
        returnedText (Cloudflare.pipe valves body
            (fun _ => TransportResult.timeout m) parse)
          = some "Error: Request to Cloudflare Workers AI timed out."
        ∧ returnedText (Cloudflare.pipe valves body
            (fun _ => TransportResult.requestError m) parse)
          = some ("Error: Failed to connect to Cloudflare Workers AI: " ++ m))
    ∧ (∀ (valves : Cloudflare.Valves) (body : Json) (parse : String → Option Json)
        (url : String) (payload : Json) (status : Nat) (text : String)
        (jn : Except String Json) (ls : List (Except String String)),
        valves.CLOUDFLARE_API_KEY ≠ "" → valves.CLOUDFLARE_ACCOUNT_ID ≠ "" →
        Cloudflare.build_call valves body = .ok (url, payload) →
        status ≠ 200 →
        returnedText (Cloudflare.pipe valves body
            (fun _ => TransportResult.success ⟨status, text, jn, ls⟩) parse)
          = some ("Error: Cloudflare API returned status " ++ toString status ++ ": " ++ text))
    ∧ (∀ (valves : Cloudflare.Valves) (body : Json) (parse : String → Option Json)
        (url : String) (payload : Json) (text e : String)
        (ls : List (Except String String)),
        valves.CLOUDFLARE_API_KEY ≠ "" → valves.CLOUDFLARE_ACCOUNT_ID ≠ "" →
        Cloudflare.build_call valves body = .ok (url, payload) →
        returnedText (Cloudflare.pipe valves body
            (fun _ => TransportResult.success ⟨200, text, .error e, ls⟩) parse)
          = some ("Error: Failed to connect to Cloudflare Workers AI: " ++ e))
    ∧ (∀ (valves : Cloudflare.Valves) (body : Json) (parse : String → Option Json)
        (url : String) (payload : Json) (text : String) (data : Json) (e : String)
        (ls : List (Except String String)),
        valves.CLOUDFLARE_API_KEY ≠ "" → valves.CLOUDFLARE_ACCOUNT_ID ≠ "" →
        Cloudflare.build_call valves body = .ok (url, payload) →
        Cloudflare.extract_body data = .error e →
        returnedText (Cloudflare.pipe valves body
            (fun _ => TransportResult.success ⟨200, text, .ok data, ls⟩) parse)
          = some ("Error: " ++ e)) := by
  refine ⟨?_, fun _ _ _ => rfl, fun _ _ _ => rfl, ?_, ?_, ?_, ?_, ?_, ?_, ?_, ?_, ?_, ?_⟩
  · intro parse s
    induction s with
    | nil => rfl
    | cons x rest ih =>
        cases x with
        | error e => rfl
        | ok line =>
            simp only [Cloudflare.stream_response]
            cases hl : Cloudflare.stream_line parse line <;> simp [hl, ih]
  · intro cfg apiKey baseUrl body parse payload streamJson tr hb hs
    by_cases hk0 : apiKey = ""
    · subst hk0
      rfl
    · unfold OpenAIStyle.pipe
      rw [if_neg hk0, hb]
      cases tr with
      | success resp =>
          obtain ⟨status, text, jn, ls⟩ := resp
          by_cases hst : 400 ≤ status ∧ status < 600
          · simp [hs, hst, returnsValue]
          · rcases jn with e | data
            · simp [hs, hst, returnsValue]
            · rcases hx : OpenAIStyle.extract cfg.noRespMsg data with e | v
              · simp [hs, hst, hx, returnsValue]
              · simp [hs, hst, hx, returnsValue]
      | timeout m => simp [hs, returnsValue]
      | requestError m => simp [hs, returnsValue]
  · intro cfg apiKey baseUrl body parse payload streamJson m hk hb hs
    constructor <;>
      (unfold OpenAIStyle.pipe
       rw [if_neg hk, hb]
       simp [hs, returnedText])
  · intro cfg apiKey baseUrl body parse payload streamJson status text jn ls hk hb hs h4 h6
    unfold OpenAIStyle.pipe
    rw [if_neg hk, hb]
    simp [hs, h4, h6, returnedText]
  · intro cfg apiKey baseUrl body parse payload streamJson text e ls hk hb hs
    unfold OpenAIStyle.pipe
    rw [if_neg hk, hb]
    simp [hs, returnedText]
  · intro cfg apiKey baseUrl body parse payload streamJson text data e ls hk hb hs hx
    unfold OpenAIStyle.pipe
    rw [if_neg hk, hb]
    simp [hs, hx, returnedText]
  · intro valves body parse url payload tr hb
    by_cases hk0 : valves.CLOUDFLARE_API_KEY = ""
    · unfold Cloudflare.pipe
      rw [if_pos hk0]
      rfl
    · by_cases ha0 : valves.CLOUDFLARE_ACCOUNT_ID = ""
      · unfold Cloudflare.pipe
        rw [if_neg hk0, if_pos ha0]
        rfl
      · unfold Cloudflare.pipe
        rw [if_neg hk0, if_neg ha0, hb]
        cases tr with
        | success resp =>
            obtain ⟨status, text, jn, ls⟩ := resp
            by_cases hst : status ≠ 200
            · simp [hst, returnsValue]
            · rcases jn with e | data
              · simp [hst, returnsValue]
              · rcases hx : Cloudflare.extract_body data with e | v
                · simp [hst, hx, returnsValue]
                · simp [hst, hx, returnsValue]
        | timeout m => simp [returnsValue]
        | requestError m => simp [returnsValue]
  · intro valves body parse url payload m hk ha hb
    constructor <;>
      (unfold Cloudflare.pipe
       rw [if_neg hk, if_neg ha, hb]
       simp [returnedText])
  · intro valves body parse url payload status text jn ls hk ha hb hst
    unfold Cloudflare.pipe
    rw [if_neg hk, if_neg ha, hb]
    simp [hst, returnedText]
  · intro valves body parse url payload text e ls hk ha hb
    unfold Cloudflare.pipe
    rw [if_neg hk, if_neg ha, hb]
    simp [returnedText]
  · intro valves body parse url payload text data e ls hk ha hb hx
    unfold Cloudflare.pipe
    rw [if_neg hk, if_neg ha, hb]
    simp [hx, returnedText]

theorem claim3_amended_error_propagation_witness :
    returnedText (OpenAIStyle.pipe deepseekCfg "k" "b" (Json.obj [])
        (fun _ => TransportResult.timeout "t") noParse)
      = some (deepseekCfg.connectErrMsg ++ "t")
    ∧ returnedText (OpenAIStyle.pipe deepseekCfg "k" "b" (Json.obj [])
        (fun _ => TransportResult.requestError "t") noParse)
      = some (deepseekCfg.connectErrMsg ++ "t") :=
  claim3_amended_error_propagation.2.2.2.2.1 deepseekCfg "k" "b" (Json.obj []) noParse
    (Json.obj [("model", Json.str "deepseek-chat"), ("messages", Json.arr []),
               ("stream", Json.bool false)])
    (Json.bool false) "t" (by decide) rfl rfl

/-- Payload text of the concrete streaming event used by the C3
counterexample, the JSON rendering of `choicesDeltaEvent "Hi"`. -/
def c3payload : String :=
  "\x7b\"choices\": [\x7b\"delta\": \x7b\"content\": \"Hi\"\x7d\x7d]\x7d"

/-- A json.loads oracle for the C3 counterexample payload. -/
def c3parse : String → Option Json :=
  fun s => if s = c3payload then some (choicesDeltaEvent "Hi") else none

/-- C3 counterexample: on the OpenAI-style streaming path an exception
while reading the line stream is NOT converted into a final
error-notice fragment — the fragments already yielded stay delivered
and the exception propagates to the host.  Likewise a transport
failure on the streaming path surfaces as a raised exception at first
iteration of the returned generator, not as a user-visible text
value.  This contradicts the claim that every error kind is returned
as text and that a read exception ends the sequence with one final
error-notice fragment. -/
theorem claim3_counterexample :
    OpenAIStyle.handle_stream_run c3parse
        [Except.ok ("data: " ++ c3payload), Except.error "connection reset by peer"]
      = ([Json.str "Hi"], .raised "connection reset by peer")
    ∧ returnOf (OpenAIStyle.pipe deepseekCfg "key" "https://api.deepseek.com/v1"
          (Json.obj [("stream", Json.bool true)])
          (fun _ => .requestError "boom") noParse)
      = some (.generator [] (.raised "boom")) := by
  exact ⟨rfl, rfl⟩

/-- C2 amended: a "data: " line with a non-empty payload that is not
"[DONE]" and that json.loads rejects makes the lenient Cloudflare
decoder emit exactly one fragment, the raw payload verbatim; the
strict OpenAI-style decoder instead silently skips the line (zero
fragments, not a decode-error notice) and continues decoding the rest
of the stream unchanged.  (An empty malformed payload yields zero
fragments on the lenient path as well; see the counterexample.) -/
theorem claim2_amended_malformed_payload (parse : String → Option Json) (payload : String)
    (hp : parse payload = none) (hne : strIsEmpty payload = false)
    (hnd : payload ≠ "[DONE]") (hs : pyStrip payload ≠ "[DONE]") :
    Cloudflare.decodeLines parse ["data: " ++ payload] = ([.str payload], .done)
    ∧ OpenAIStyle.decodeLines parse ["data: " ++ payload] = ([], .done)
    ∧ ∀ rest : List (Except String String),
        OpenAIStyle.handle_stream_run parse (Except.ok ("data: " ++ payload) :: rest)
          = OpenAIStyle.handle_stream_run parse rest := by
  refine ⟨?_, ?_, ?_⟩
  · simp [Cloudflare.decodeLines, Cloudflare.stream_response,
          cf_line_raw parse payload hnd hne hp]
  · simp [OpenAIStyle.decodeLines, OpenAIStyle.handle_stream_run,
          ds_line_skip parse payload hs hp]
  · intro rest
    simp [OpenAIStyle.handle_stream_run, ds_line_skip parse payload hs hp]

theorem claim2_amended_malformed_payload_witness :
    Cloudflare.decodeLines noParse ["data: " ++ "notjson"] = ([.str "notjson"], .done)
    ∧ OpenAIStyle.decodeLines noParse ["data: " ++ "notjson"] = ([], .done) :=
  ⟨(claim2_amended_malformed_payload noParse "notjson" rfl (by decide) (by decide) (by decide)).1,
   (claim2_amended_malformed_payload noParse "notjson" rfl (by decide) (by decide) (by decide)).2.1⟩

/-- Payload text of the valid streaming event used by the C2
counterexample. -/
def c2payload : String :=
  "\x7b\"choices\": [\x7b\"delta\": \x7b\"content\": \"hi\"\x7d\x7d]\x7d"

/-- A json.loads oracle for the C2 counterexample: rejects every
payload except the valid event text. -/
def c2parse : String → Option Json :=
  fun s => if s = c2payload then some (choicesDeltaEvent "hi") else none

/-- C2 counterexample: on the strict (JSON-only) provider path a
malformed "data: " payload does NOT terminate the fragment sequence
with a decode-error notice as its final fragment — the decoder emits
zero fragments for that line (so there is no final error fragment)
and keeps decoding: a later valid line still yields its content.
Also, an empty malformed payload on the lenient Cloudflare path
yields zero fragments rather than the claimed one raw fragment. -/
theorem claim2_counterexample :
    (OpenAIStyle.decodeLines c2parse ["data: notjson"]).1 = []
    ∧ (OpenAIStyle.decodeLines c2parse ["data: notjson", "data: " ++ c2payload]).1
        = [Json.str "hi"]
    ∧ (Cloudflare.decodeLines c2parse ["data: "]).1 = [] := by
  exact ⟨rfl, rfl, rfl⟩

/-- Reduction of an Except bind on a success value, for pushing simp
through the monadic translation of the Python code. -/
theorem exBindOk {ε α β : Type} (a : α) (f : α → Except ε β) :
    (Except.ok a : Except ε α) >>= f = f a := rfl

/-- Reduction of pure to the ok constructor on Except. -/
theorem exPureEq {ε α : Type} (a : α) : (pure a : Except ε α) = Except.ok a := rfl

/-- Fragment the specification predicts for one choices element on the
lenient decoder: the delta content when present and non-empty. -/
def c5specFrag : Option (Option String) → Option Json
  | some (some s) => if strIsEmpty s then none else some (Json.str s)
  | _ => none

/-- The Cloudflare choices loop emits one fragment per element whose
delta carries non-empty content, in element order. -/
theorem cf_choicesLoop_spec (cs : List (Option (Option String))) :
    Cloudflare.choicesLoop (cs.map mkChoiceJson) = .ok (cs.filterMap c5specFrag) := by
  induction cs with
  | nil => rfl
  | cons c rest ih =>
      simp only [List.map_cons]
      unfold Cloudflare.choicesLoop
      rw [ih]
      cases c with
      | none => rfl
      | some oc =>
          cases oc with
          | none => rfl
          | some s =>
              cases hse : strIsEmpty s with
              | false =>
                  simp [mkChoiceJson, Json.pyContains, Json.pyItem, Json.pyGetD,
                        Json.pyTruthy, lookupAssoc, hse, c5specFrag, exBindOk,
                        exPureEq, List.filterMap_cons]
              | true =>
                  simp [mkChoiceJson, Json.pyContains, Json.pyItem, Json.pyGetD,
                        Json.pyTruthy, lookupAssoc, hse, c5specFrag, exBindOk,
                        exPureEq, List.filterMap_cons]

/-- C5 amended: for a parsed event whose "choices" is a sequence, the
Cloudflare decoder behaves as the claim states — one fragment for
every element with a delta carrying non-empty content, in order,
never an empty fragment; but the OpenAI-style decoders read only the
FIRST element of the sequence and emit its delta content whenever the
"content" key is present, including when that content is the empty
string. -/
theorem claim5_amended_choices_events (cs : List (Option (Option String))) :
    Cloudflare.event_fragments (Json.obj [("choices", Json.arr (cs.map mkChoiceJson))])
      = .ok (cs.filterMap c5specFrag)
    ∧ OpenAIStyle.choices_fragments (Json.obj [("choices", Json.arr (cs.map mkChoiceJson))])
      = .ok (match cs with
             | some (some s) :: _ => [Json.str s]
             | _ => []) := by
  constructor
  · exact cf_choicesLoop_spec cs
  · cases cs with
    | nil => rfl
    | cons c rest =>
        cases c with
        | none =>
            simp [OpenAIStyle.choices_fragments, mkChoiceJson, Json.pyContains,
                  Json.pyItem, Json.pyLen, Json.pyIndexZero, Json.pyGetD,
                  lookupAssoc, exBindOk, exPureEq]
        | some oc =>
            cases oc with
            | none =>
                simp [OpenAIStyle.choices_fragments, mkChoiceJson, Json.pyContains,
                      Json.pyItem, Json.pyLen, Json.pyIndexZero, Json.pyGetD,
                      lookupAssoc, exBindOk, exPureEq]
            | some s =>
                simp [OpenAIStyle.choices_fragments, mkChoiceJson, Json.pyContains,
                      Json.pyItem, Json.pyLen, Json.pyIndexZero, Json.pyGetD,
                      lookupAssoc, exBindOk, exPureEq]

/-- The streaming event of the C5 counterexample: two choices, the
first with empty delta content, the second with content "b". -/
def c5event : Json :=
  Json.obj [("choices", Json.arr
    [Json.obj [("delta", Json.obj [("content", Json.str "")])],
     Json.obj [("delta", Json.obj [("content", Json.str "b")])]])]

/-- C5 counterexample: on this event the OpenAI-style decoders emit
exactly one fragment, the EMPTY string from the first element's delta
— an empty fragment the claim forbids — and never emit the non-empty
"b" carried by the second element; the Cloudflare decoder emits
["b"], the fragments the claim predicts. -/
theorem claim5_counterexample :
    OpenAIStyle.choices_fragments c5event = .ok [Json.str ""]
    ∧ Cloudflare.event_fragments c5event = .ok [Json.str "b"]
    ∧ ([Json.str ""] : List Json) ≠ [Json.str "b"] := by
  refine ⟨rfl, rfl, ?_⟩
  intro h
  injection h with h1 _
  injection h1 with h2
  exact absurd h2 (by decide)

/-!
Claim 6: namespace stripping of model ids.
-/

/-- A character list containing a dot has the dot as an infix. -/
theorem listHasInfix_dot (a b : List Char) :
    listHasInfix (a ++ '.' :: b) ['.'] = true := by
  induction a with
  | nil => simp [listHasInfix, listStartsWith, listStartsWith_nil]
  | cons c cs ih => simp [listHasInfix, ih]

/-- Dropping through the first dot of a dot-free head returns what
follows the separator. -/
theorem dropThroughChar_dot (a b : List Char) (h : ∀ c ∈ a, c ≠ '.') :
    dropThroughChar '.' (a ++ '.' :: b) = b := by
  induction a with
  | nil => simp [dropThroughChar]
  | cons c cs ih =>
      have hc : c ≠ '.' := h c (List.mem_cons_self c cs)
      simp only [List.cons_append, dropThroughChar, hc, if_false]
      exact ih (fun d hd => h d (List.mem_cons_of_mem c hd))

/-- C6 amended: only the Cloudflare adapter splits every id containing
a namespace separator on the first "." and keeps the suffix; each
OpenAI-style adapter touches only ids starting with its own provider
tag (e.g. "deepseek.") — any other namespaced id, such as
"providerX.modelA", passes through unchanged — and for a tagged id
such as "deepseek.modelA" the outbound body's model field is
"modelA". -/
theorem claim6_model_id_stripping :
    (∀ s : String, strStartsWith s "deepseek." = false →
        OpenAIStyle.strip_model_tag "deepseek." s = s)
    ∧ OpenAIStyle.strip_model_tag "deepseek." "deepseek.modelA" = "modelA"
    ∧ (∀ a b : String, (∀ c ∈ a.data, c ≠ '.') →
        Cloudflare.strip_model_tag (a ++ "." ++ b) = b)
    ∧ firstPayloadModel (OpenAIStyle.pipe deepseekCfg "k" "https://api.deepseek.com/v1"
          (Json.obj [("model", Json.str "deepseek.modelA")]) okHttp noParse)
        = some (Json.str "modelA") := by
  refine ⟨?_, rfl, ?_, rfl⟩
  · intro s h
    unfold OpenAIStyle.strip_model_tag
    simp [h]
  · intro a b h
    unfold Cloudflare.strip_model_tag
    have hdata : (a ++ "." ++ b).data = a.data ++ '.' :: b.data := by
      rw [String.data_append (a ++ ".") b, String.data_append a "."]
      simp
    have hc : strContainsSub (a ++ "." ++ b) "." = true := by
      unfold strContainsSub
      rw [hdata]
      exact listHasInfix_dot a.data b.data
    rw [hc]
    simp only [if_true]
    unfold strAfterFirstDot
    rw [hdata, dropThroughChar_dot a.data b.data h]

theorem claim6_model_id_stripping_witness :
    OpenAIStyle.strip_model_tag "deepseek." "providerX.modelA" = "providerX.modelA"
    ∧ Cloudflare.strip_model_tag ("providerX" ++ "." ++ "modelA") = "modelA" :=
  ⟨claim6_model_id_stripping.1 "providerX.modelA" (by decide),
   claim6_model_id_stripping.2.2.1 "providerX" "modelA" (by decide)⟩

/-- C6 counterexample: the DeepSeek pipe invoked with the namespaced
model id "providerX.modelA" sends that id UNCHANGED as the outbound
body's model field — not the claimed suffix "modelA" — because the
pipe strips only its own "deepseek." tag. -/
theorem claim6_counterexample :
    firstPayloadModel (OpenAIStyle.pipe deepseekCfg "k" "https://api.deepseek.com/v1"
        (Json.obj [("model", Json.str "providerX.modelA")]) okHttp noParse)
      = some (Json.str "providerX.modelA")
    ∧ some (Json.str "providerX.modelA") ≠ some (Json.str "modelA") := by
  refine ⟨rfl, ?_⟩
  intro h
  injection h with h1
  injection h1 with h2
  exact absurd h2 (by decide)

/-!
Claim 7: flattening of a message list for the single-input endpoint.
-/

/-- The parts built by messages_to_input for role/content string
messages follow the specification's flattening rule. -/
theorem cf_msgsParts_spec (msgs : List (String × String)) :
    Cloudflare.msgsParts (msgs.map (fun rc => mkMsg rc.1 rc.2))
      = .ok (msgs.map rolePartSpec) := by
  induction msgs with
  | nil => rfl
  | cons rc rest ih =>
      simp only [List.map_cons]
      unfold Cloudflare.msgsParts
      rw [ih]
      by_cases h1 : rc.1 = "system"
      · simp [mkMsg, Json.pyGetD, lookupAssoc, Json.eqStr, Json.pyStr,
              rolePartSpec, h1, exBindOk, exPureEq]
      · by_cases h2 : rc.1 = "assistant"
        · simp [mkMsg, Json.pyGetD, lookupAssoc, Json.eqStr, Json.pyStr,
                rolePartSpec, h1, h2, exBindOk, exPureEq]
        · by_cases h3 : rc.1 = "user"
          · simp [mkMsg, Json.pyGetD, lookupAssoc, Json.eqStr, Json.pyStr,
                  rolePartSpec, h1, h2, h3, exBindOk, exPureEq]
          · simp [mkMsg, Json.pyGetD, lookupAssoc, Json.eqStr, Json.pyStr,
                  rolePartSpec, h1, h2, h3, exBindOk, exPureEq]

/-- C7: flattening a message list for the single-input endpoint.  A
single message flattens to its content verbatim (whatever value the
content is); two or more role/content messages flatten to the
"<Role>: <content>" parts (capitalized labels for
system/assistant/user, raw content for any other role) joined by
blank lines in original order; and the literal three-message example
of the specification flattens to the predicted string. -/
theorem claim7_flatten :
    (∀ m : Json, Cloudflare.messages_to_input (.arr [m]) = m.pyGetD "content" (.str ""))
    ∧ (∀ msgs : List (String × String), 2 ≤ msgs.length →
        Cloudflare.messages_to_input (.arr (msgs.map (fun rc => mkMsg rc.1 rc.2)))
          = .ok (.str (strJoinSep "\n\n" (msgs.map rolePartSpec))))
    ∧ Cloudflare.messages_to_input
        (.arr [mkMsg "system" "be terse", mkMsg "user" "2+2?", mkMsg "assistant" "4"])
      = .ok (.str "System: be terse\n\nUser: 2+2?\n\nAssistant: 4") := by
  refine ⟨fun m => rfl, ?_, rfl⟩
  intro msgs hlen
  rcases msgs with _ | ⟨a, _ | ⟨b, rest⟩⟩
  · simp at hlen
  · simp at hlen
  · unfold Cloudflare.messages_to_input
    have htruthy : (Json.arr ((a :: b :: rest).map (fun rc => mkMsg rc.1 rc.2))).pyTruthy
        = true := by
      simp [Json.pyTruthy]
    have hlen1 : ((a :: b :: rest).map (fun rc => mkMsg rc.1 rc.2)).length = 1 ↔ False := by
      simp
    simp only [htruthy, Bool.not_true, Json.pyLen, exBindOk, exPureEq, hlen1,
               if_false, Json.pyIter, Bool.false_eq_true]
    rw [cf_msgsParts_spec (a :: b :: rest)]
    simp [exBindOk, exPureEq]

theorem claim7_flatten_witness :
    Cloudflare.messages_to_input
        (.arr (([("system", "a"), ("user", "b")] : List (String × String)).map
          (fun rc => mkMsg rc.1 rc.2)))
      = .ok (.str (strJoinSep "\n\n" ([("system", "a"), ("user", "b")].map rolePartSpec))) :=
  claim7_flatten.2.1 [("system", "a"), ("user", "b")] (by decide)

/-!
Claim 8: behavior with an unset API key.
-/

/-- C8 amended: with an empty API key every pipe returns its fixed
error text before any network activity — the list of issued requests
is empty — and that text contains the substring "API Key" for the
Cloudflare pipe but "API_KEY" (the provider's environment-variable
style name, not "API Key" or "API key") for the four OpenAI-style
pipes. -/
theorem claim8_missing_key :
    (∀ (acct base : String) (body : Json) (http : OutboundRequest → TransportResult)
        (parse : String → Option Json),
      Cloudflare.pipe ⟨"", acct, base⟩ body http parse
        = .ok (.value (.str "Error: Cloudflare API Key is not set. Please configure it in the valve settings."), []))
    ∧ (∀ (baseUrl : String) (body : Json) (http : OutboundRequest → TransportResult)
        (parse : String → Option Json),
      OpenAIStyle.pipe deepseekCfg "" baseUrl body http parse
        = .ok (.value (.str deepseekCfg.keyErrMsg), []))
    ∧ (∀ (baseUrl : String) (body : Json) (http : OutboundRequest → TransportResult)
        (parse : String → Option Json),
      OpenAIStyle.pipe mistralCfg "" baseUrl body http parse
        = .ok (.value (.str mistralCfg.keyErrMsg), []))
    ∧ (∀ (baseUrl : String) (body : Json) (http : OutboundRequest → TransportResult)
        (parse : String → Option Json),
      OpenAIStyle.pipe perplexityCfg "" baseUrl body http parse
        = .ok (.value (.str perplexityCfg.keyErrMsg), []))
    ∧ (∀ (baseUrl : String) (body : Json) (http : OutboundRequest → TransportResult)
        (parse : String → Option Json),
      OpenAIStyle.pipe xaiCfg "" baseUrl body http parse
        = .ok (.value (.str xaiCfg.keyErrMsg), []))
    ∧ strContainsSub "Error: Cloudflare API Key is not set. Please configure it in the valve settings." "API Key" = true
    ∧ strContainsSub deepseekCfg.keyErrMsg "API_KEY" = true
    ∧ strContainsSub mistralCfg.keyErrMsg "API_KEY" = true
    ∧ strContainsSub perplexityCfg.keyErrMsg "API_KEY" = true
    ∧ strContainsSub xaiCfg.keyErrMsg "API_KEY" = true :=
  ⟨fun _ _ _ _ _ => rfl, fun _ _ _ _ => rfl, fun _ _ _ _ => rfl, fun _ _ _ _ => rfl,
   fun _ _ _ _ => rfl, by decide, by decide, by decide, by decide, by decide⟩

/-- C8 counterexample: the DeepSeek pipe invoked with an empty key
does return an error text without issuing any request, but that text
— "Error: DEEPSEEK_API_KEY is not set. Please configure it in the
pipe settings." — contains neither "API Key" nor "API key", so the
claimed substring guarantee fails for the OpenAI-style pipes. -/
theorem claim8_counterexample :
    OpenAIStyle.pipe deepseekCfg "" "https://api.deepseek.com/v1" (Json.obj []) okHttp noParse
      = .ok (.value (.str "Error: DEEPSEEK_API_KEY is not set. Please configure it in the pipe settings."), [])
    ∧ strContainsSub "Error: DEEPSEEK_API_KEY is not set. Please configure it in the pipe settings." "API Key" = false
    ∧ strContainsSub "Error: DEEPSEEK_API_KEY is not set. Please configure it in the pipe settings." "API key" = false :=
  ⟨rfl, by decide, by decide⟩

/-!
Claim 10: default model ids, and the payload-key lemmas they need.
-/

/-- Setting one key leaves the lookup of any other key unchanged. -/
theorem lookupAssoc_setAssoc_ne (fs : List (String × Json)) (k k' : String) (v : Json)
    (h : k ≠ k') : lookupAssoc (setAssoc fs k v) k' = lookupAssoc fs k' := by
  induction fs with
  | nil => simp [setAssoc, lookupAssoc, h]
  | cons kv rest ih =>
      obtain ⟨k0, v0⟩ := kv
      by_cases h0 : k0 = k
      · subst h0
        simp [setAssoc, lookupAssoc, h]
      · simp [setAssoc, lookupAssoc, h0, ih]

/-- Json.setKey version of the preservation lemma. -/
theorem lookupKey_setKey_ne (p : Json) (k k' : String) (v : Json) (h : k ≠ k') :
    (p.setKey k v).lookupKey k' = p.lookupKey k' := by
  cases p <;> simp [Json.setKey, Json.lookupKey, lookupAssoc_setAssoc_ne _ _ _ _ h]

/-- Copying one optional parameter cannot change any other key. -/
theorem lookupKey_addParam_ne (p body : Json) (k k' : String) (h : k ≠ k') :
    (OpenAIStyle.addParam p body k).lookupKey k' = p.lookupKey k' := by
  cases body with
  | obj fs =>
      unfold OpenAIStyle.addParam
      cases hl : lookupAssoc fs k with
      | none => simp only [hl]
      | some v =>
          simp only [hl]
          exact lookupKey_setKey_ne p k k' v h
  | null => rfl
  | bool b => rfl
  | num n => rfl
  | str s => rfl
  | arr xs => rfl

/-- Copying a list of optional parameters not containing a key cannot
change that key. -/
theorem lookupKey_addParams_ne (body : Json) (ks : List String) (k' : String)
    (h : ∀ k ∈ ks, k ≠ k') (p : Json) :
    (OpenAIStyle.addParams p body ks).lookupKey k' = p.lookupKey k' := by
  induction ks generalizing p with
  | nil => rfl
  | cons k rest ih =>
      show (OpenAIStyle.addParams (OpenAIStyle.addParam p body k) body rest).lookupKey k' = _
      rw [ih (fun q hq => h q (List.mem_cons_of_mem _ hq)) (OpenAIStyle.addParam p body k)]
      exact lookupKey_addParam_ne p body k k' (h k (List.mem_cons_self _ _))

/-- Payload builder of the OpenAI-style pipes on a body without a
"model" key: the configured default model id lands in the payload. -/
theorem openai_build_payload_model_default (cfg : OpenAIStyle.OpenAICfg)
    (fs : List (String × Json))
    (hmodel : lookupAssoc fs "model" = none)
    (htag : strStartsWith cfg.defaultModel cfg.tag = false)
    (hks : ∀ k ∈ cfg.optionalParams, k ≠ "model") :
    payloadModelOf (OpenAIStyle.build_payload cfg (.obj fs)) = some (.str cfg.defaultModel) := by
  unfold OpenAIStyle.build_payload
  simp only [Json.pyGetD, hmodel, Option.getD]
  unfold OpenAIStyle.strip_model_tag
  simp only [htag, Bool.false_eq_true, if_false, payloadModelOf]
  rw [lookupKey_setKey_ne _ _ _ _ (by decide)]
  rw [lookupKey_addParams_ne _ _ _ hks]
  rfl

/-- C10: a request body with no "model" field does not fail: each
OpenAI-style pipe substitutes its fixed provider default —
"deepseek-chat", "mistral-large-latest", "sonar", "grok-3" — into the
outbound payload's model field. -/
theorem claim10_default_models :
    (∀ fs : List (String × Json), lookupAssoc fs "model" = none →
      payloadModelOf (OpenAIStyle.build_payload deepseekCfg (.obj fs))
        = some (.str "deepseek-chat"))
    ∧ (∀ fs : List (String × Json), lookupAssoc fs "model" = none →
      payloadModelOf (OpenAIStyle.build_payload mistralCfg (.obj fs))
        = some (.str "mistral-large-latest"))
    ∧ (∀ fs : List (String × Json), lookupAssoc fs "model" = none →
      payloadModelOf (OpenAIStyle.build_payload perplexityCfg (.obj fs))
        = some (.str "sonar"))
    ∧ (∀ fs : List (String × Json), lookupAssoc fs "model" = none →
      payloadModelOf (OpenAIStyle.build_payload xaiCfg (.obj fs))
        = some (.str "grok-3")) :=
  ⟨fun fs h => openai_build_payload_model_default deepseekCfg fs h (by decide) (by decide),
   fun fs h => openai_build_payload_model_default mistralCfg fs h (by decide) (by decide),
   fun fs h => openai_build_payload_model_default perplexityCfg fs h (by decide) (by decide),
   fun fs h => openai_build_payload_model_default xaiCfg fs h (by decide) (by decide)⟩

theorem claim10_default_models_witness :
    payloadModelOf (OpenAIStyle.build_payload deepseekCfg (.obj []))
        = some (.str "deepseek-chat")
    ∧ payloadModelOf (OpenAIStyle.build_payload mistralCfg (.obj []))
        = some (.str "mistral-large-latest")
    ∧ payloadModelOf (OpenAIStyle.build_payload perplexityCfg (.obj []))
        = some (.str "sonar")
    ∧ payloadModelOf (OpenAIStyle.build_payload xaiCfg (.obj []))
        = some (.str "grok-3") :=
  ⟨claim10_default_models.1 [] rfl, claim10_default_models.2.1 [] rfl,
   claim10_default_models.2.2.1 [] rfl, claim10_default_models.2.2.2 [] rfl⟩

/-!
Claim 9: the Cloudflare adapter forces streaming off.
-/

/-- Whatever call build_call constructs, its payload has no "stream"
entry: the only keys ever added are model/input or messages plus
temperature, max_tokens and top_p. -/
theorem cf_build_call_no_stream (valves : Cloudflare.Valves) (body : Json)
    (url : String) (payload : Json)
    (h : Cloudflare.build_call valves body = .ok (url, payload)) :
    payload.lookupKey "stream" = none := by
  unfold Cloudflare.build_call at h
  repeat' split at h
  all_goals
    first
      | exact Except.noConfusion h
      | (injection h with h1
         injection h1 with hu hp
         subst hp
         unfold Cloudflare.with_optional_params
         rw [lookupKey_addParam_ne _ _ _ _ (by decide),
             lookupKey_addParam_ne _ _ _ _ (by decide),
             lookupKey_addParam_ne _ _ _ _ (by decide)]
         rfl)

/-- C9: the Cloudflare pipe forces streaming off regardless of the
request's stream intent.  For every configuration, request body and
transport behavior, whenever pipe returns (does not raise), the
result is a single non-incremental value — never a generator — and
every outbound request it issued was sent without HTTP streaming and
with a payload whose "stream" entry is absent (never enabled).  The
caller is informed the response will not be incremental precisely by
receiving a plain value instead of a fragment generator. -/
theorem claim9_stream_forced_off :
    ∀ (valves : Cloudflare.Valves) (body : Json)
      (http : OutboundRequest → TransportResult) (parse : String → Option Json)
      (ret : PipeReturn) (reqs : List OutboundRequest),
      Cloudflare.pipe valves body http parse = .ok (ret, reqs) →
      (∃ v, ret = PipeReturn.value v)
      ∧ ∀ req ∈ reqs, req.stream = false ∧ req.payload.lookupKey "stream" = none := by
  intro valves body http parse ret reqs h
  unfold Cloudflare.pipe at h
  by_cases hk : valves.CLOUDFLARE_API_KEY = ""
  · rw [if_pos hk] at h
    injection h with h1
    injection h1 with hr hq
    subst hq
    exact ⟨⟨_, hr.symm⟩, fun req hreq => absurd hreq (List.not_mem_nil req)⟩
  · rw [if_neg hk] at h
    by_cases ha : valves.CLOUDFLARE_ACCOUNT_ID = ""
    · rw [if_pos ha] at h
      injection h with h1
      injection h1 with hr hq
      subst hq
      exact ⟨⟨_, hr.symm⟩, fun req hreq => absurd hreq (List.not_mem_nil req)⟩
    · rw [if_neg ha] at h
      cases hbc : Cloudflare.build_call valves body with
      | error e =>
          rw [hbc] at h
          exact Except.noConfusion h
      | ok up =>
          obtain ⟨url, payload⟩ := up
          rw [hbc] at h
          have hps : payload.lookupKey "stream" = none :=
            cf_build_call_no_stream valves body url payload hbc
          simp only [Bool.false_eq_true, if_false] at h
          repeat' split at h
          all_goals
            (injection h with h1
             injection h1 with hr hq
             subst hq
             refine ⟨⟨_, hr.symm⟩, ?_⟩
             intro req hreq
             simp only [List.mem_cons, List.not_mem_nil, or_false] at hreq
             subst hreq
             exact ⟨rfl, hps⟩)

theorem claim9_stream_forced_off_witness :
    (∃ v, PipeReturn.value (Json.str "Error: Request to Cloudflare Workers AI timed out.")
        = PipeReturn.value v)
    ∧ ∀ req ∈ [({ url := "b/a/ai/run/",
                  headers := [("Authorization", "Bearer k"),
                              ("Content-Type", "application/json")],
                  payload := Json.obj [("messages", Json.arr [])],
                  stream := false } : OutboundRequest)],
        req.stream = false ∧ req.payload.lookupKey "stream" = none :=
  claim9_stream_forced_off ⟨"k", "a", "b"⟩ (Json.obj [])
    (fun _ => .timeout "t") noParse
    (PipeReturn.value (Json.str "Error: Request to Cloudflare Workers AI timed out."))
    [({ url := "b/a/ai/run/",
        headers := [("Authorization", "Bearer k"),
                    ("Content-Type", "application/json")],
        payload := Json.obj [("messages", Json.arr [])],
        stream := false } : OutboundRequest)]
    rfl
